import Mathlib

/-!
Shallow embedding of the two AWS Lambda handlers of this repository:
`lambda_function.py` (the Greeter handler) and
`lambda_SAM/.aws-sam/build/lambdaSAM/lambda_function.py` (the IP-Extractor
handler).  JSON-like Python values are modelled by `PyVal`; Python dicts are
association lists (lookup takes the first binding, which defines the mapping);
an exception that escapes to the enclosing handler is modelled with
`Except Unit`.  Response bodies are modelled as the decoded JSON object that
`json.dumps` serialises, in insertion order.
-/

/-- A JSON-like Python value: `None`, a string, or a string-keyed dict. -/
inductive PyVal where
  | vnone : PyVal
  | vstr : String → PyVal
  | vobj : List (String × PyVal) → PyVal

/-- A Python dict with string keys, as an association list. -/
abbrev Dict := List (String × PyVal)

/-- Lookup in a dict: the `d[k]` / `k in d` primitive. -/
def dictGet : Dict → String → Option PyVal
  | [], _ => none
  | kv :: rest, key => if kv.1 = key then some kv.2 else dictGet rest key

/-- Python `k in d` membership test. -/
def hasKey (d : Dict) (k : String) : Bool :=
  (dictGet d k).isSome

/-- Python `d.get(k)`: `None` when the key is absent. -/
def pyGet (d : Dict) (k : String) : PyVal :=
  (dictGet d k).getD PyVal.vnone

/-- Python `d.get(k, default)`. -/
def pyGetD (d : Dict) (k : String) (dv : PyVal) : PyVal :=
  (dictGet d k).getD dv

/-- Python truthiness of a `PyVal`: `None`, `""` and `{}` are falsy. -/
def truthy : PyVal → Bool
  | PyVal.vnone => false
  | PyVal.vstr s => if s = "" then false else true
  | PyVal.vobj [] => false
  | PyVal.vobj (_ :: _) => true

/-- The characters Python `str.strip` and `int` treat as whitespace
(ASCII subset). -/
def pySpace (c : Char) : Bool :=
  c == ' ' || c == '\t' || c == '\n' || c == '\r' || c == '\x0b' || c == '\x0c'

/-- Python `s.strip()`: drop whitespace from both ends. -/
def pyStrip (s : String) : String :=
  String.mk (((s.toList.dropWhile pySpace).reverse.dropWhile pySpace).reverse)

/-- Does `pat` occur inside `l`? Helper for Python `pat in s` on strings. -/
def containsSub (pat : List Char) : List Char → Bool
  | [] => pat.isEmpty
  | c :: cs => pat.isPrefixOf (c :: cs) || containsSub pat cs

/-- Python `pat in s` substring test for strings. -/
def strContains (s pat : String) : Bool :=
  containsSub pat.toList s.toList

/-- Python `s.split(',')[0]`: the prefix before the first comma (the whole
string when there is no comma). -/
def beforeComma (s : String) : String :=
  String.mk (s.toList.takeWhile (fun c => c != ','))

/-- Parse a run of ASCII digits possibly separated by single underscores, as
accepted by Python `int` after the sign (an underscore must sit between two
digits). Accumulator-style, mirroring positional reading. -/
def pyDigitsAux (acc : Nat) : List Char → Option Nat
  | [] => some acc
  | c :: cs =>
    if c = '_' then
      match cs with
      | [] => none
      | c2 :: cs2 =>
        if c2.isDigit then pyDigitsAux (acc * 10 + (c2.toNat - 48)) cs2 else none
    else if c.isDigit then pyDigitsAux (acc * 10 + (c.toNat - 48)) cs
    else none

/-- The digit part of Python `int(str)`: nonempty, starts with a digit. -/
def pyDigits : List Char → Option Nat
  | [] => none
  | c :: cs => if c.isDigit then pyDigitsAux (c.toNat - 48) cs else none

/-- Python `int(s)` on an ASCII string: surrounding whitespace stripped, an
optional sign, then digits with optional single underscores between them;
`none` models the `ValueError` that `int` raises otherwise. -/
def pyInt? (s : String) : Option Int :=
  match (pyStrip s).toList with
  | c :: rest =>
    if c = '+' then (pyDigits rest).map Int.ofNat
    else if c = '-' then (pyDigits rest).map (fun n => -(n : Int))
    else (pyDigits (c :: rest)).map Int.ofNat
  | [] => none

/-- Lines 22-26 of the IP-Extractor source: the `x-forwarded-for` fallback of
`get_client_ip`.  `headers = event.get('headers', {})`; a dict is consulted by
key; a string value is split at commas and the first entry stripped.  A
non-dict `headers` or a non-string header value ends in the caught-exception
path, hence `None`. -/
def headersXff (event : Dict) : PyVal :=
  match dictGet event "headers" with
  | some (PyVal.vobj hs) =>
    if truthy (PyVal.vobj hs) ∧ hasKey hs "x-forwarded-for" then
      match dictGet hs "x-forwarded-for" with
      | some (PyVal.vstr v) => PyVal.vstr (pyStrip (beforeComma v))
      | _ => PyVal.vnone
    else PyVal.vnone
  | _ => PyVal.vnone

/-- `get_client_ip` (IP-Extractor source, lines 10-30).  Every exception inside
the function is caught and turned into `None`, so exceptional paths map to
`PyVal.vnone`.  When `requestContext` is a string, Python `in` is a substring
test and a hit leads to a `TypeError` (string indexing by name), hence
`vnone`; a miss on both falls through to the header lookup. -/
def get_client_ip (event : Dict) : PyVal :=
  match dictGet event "requestContext" with
  | some (PyVal.vobj rcf) =>
    if hasKey rcf "http" then
      match dictGet rcf "http" with
      | some (PyVal.vobj hf) => pyGet hf "sourceIp"
      | _ => PyVal.vnone
    else if hasKey rcf "identity" then
      match dictGet rcf "identity" with
      | some (PyVal.vobj idf) => pyGet idf "sourceIp"
      | _ => PyVal.vnone
    else headersXff event
  | some (PyVal.vstr s) =>
    if strContains s "http" ∨ strContains s "identity" then PyVal.vnone
    else headersXff event
  | some PyVal.vnone => PyVal.vnone
  | none => headersXff event

/-- `validate_request` (IP-Extractor source, lines 32-50).  A missing
`requestContext` key fails; otherwise `request_context.get('http')` raises on a
non-dict context (caught, giving the generic message); on a dict the check is
truthiness of the `http` and `apiId` values. -/
def validate_request (event : Dict) : Bool × String :=
  if hasKey event "requestContext" = false then
    (false, "Request not from API Gateway")
  else
    match dictGet event "requestContext" with
    | some (PyVal.vobj rcf) =>
      if truthy (pyGet rcf "http") = false ∧ truthy (pyGet rcf "apiId") = false then
        (false, "Invalid API Gateway request context")
      else (true, "")
    | _ => (false, "Error validating request")

/-- The invocation context handed to a handler: whether the object is truthy
and whether it carries an `aws_request_id` attribute (attribute access on a
truthy context without it raises `AttributeError`). -/
structure Ctx where
  isTruthy : Bool
  aws_request_id : Option String

/-- A handler response: `statusCode`, optional `headers` mapping (the Greeter
handler omits the key on its 400 and 500 responses), and the decoded JSON
object serialised into `body`, in insertion order. -/
structure Response where
  statusCode : Int
  headers : Option (List (String × String))
  body : List (String × PyVal)

/-- A string field of the response body: `some s` when the body carries the
key with a string value. -/
def bodyStr (r : Response) (k : String) : Option String :=
  match dictGet r.body k with
  | some (PyVal.vstr s) => some s
  | _ => none

/-- The `status` field of the response body. -/
def statusField (r : Response) : Option String :=
  bodyStr r "status"

/-- `{'error': error_message}` where the message may be `None`. -/
def optVal : Option String → PyVal
  | some s => PyVal.vstr s
  | none => PyVal.vnone

/-- The IP-Extractor 403 response (source lines 64-74). -/
def sam403 (msg now : String) : Response :=
  { statusCode := 403
    headers := some [("Content-Type", "application/json")]
    body := [("error", PyVal.vstr msg), ("status", PyVal.vstr "failed"),
             ("timestamp", PyVal.vstr now)] }

/-- The IP-Extractor 400 response (source lines 80-90). -/
def sam400 (now : String) : Response :=
  { statusCode := 400
    headers := some [("Content-Type", "application/json")]
    body := [("error", PyVal.vstr "Could not determine client IP"),
             ("status", PyVal.vstr "failed"), ("timestamp", PyVal.vstr now)] }

/-- The IP-Extractor 500 response (source lines 119-129): note the body status
is the string "failed". -/
def sam500 (now : String) : Response :=
  { statusCode := 500
    headers := some [("Content-Type", "application/json")]
    body := [("error", PyVal.vstr "Internal server error"),
             ("status", PyVal.vstr "failed"), ("timestamp", PyVal.vstr now)] }

/-- The IP-Extractor 200 response (source lines 93-115); `extra` holds the
method/path entries appended when modern gateway context is present. -/
def sam200 (ip : PyVal) (rid now : String) (extra : List (String × PyVal)) : Response :=
  { statusCode := 200
    headers := some [("Content-Type", "application/json"),
                     ("X-Custom-Header", "API Gateway Request")]
    body := [("message", PyVal.vstr "Request processed successfully"),
             ("client_ip", ip), ("timestamp", PyVal.vstr now),
             ("request_id", PyVal.vstr rid), ("status", PyVal.vstr "success")]
            ++ extra }

/-- `context.aws_request_id if context else 'local-test'` (source line 97); a
truthy context without the attribute raises, escaping to the handler. -/
def samRequestId (c : Ctx) : Except Unit String :=
  if c.isTruthy then
    match c.aws_request_id with
    | some rid => Except.ok rid
    | none => Except.error ()
  else Except.ok "local-test"

/-- Source lines 102-104: the method/path entries added when the event carries
`requestContext.http`.  `.get` on a non-dict `http` value raises; a string
request context raises on indexing when `"http"` occurs in it as a substring
(Python `in`). -/
def samExtra (event : Dict) : Except Unit (List (String × PyVal)) :=
  match dictGet event "requestContext" with
  | some (PyVal.vobj rcf) =>
    if hasKey rcf "http" then
      match dictGet rcf "http" with
      | some (PyVal.vobj hf) =>
        Except.ok [("method", pyGet hf "method"), ("path", pyGet hf "path")]
      | _ => Except.error ()
    else Except.ok []
  | some (PyVal.vstr s) =>
    if strContains s "http" then Except.error () else Except.ok []
  | some PyVal.vnone => Except.error ()
  | none => Except.ok []

/-- `lambda_handler` of the IP-Extractor source (lines 52-129): validate, then
extract the client IP, then build the success payload; an uncaught exception
(context attribute access or the `http` lookup) yields the 500 response. -/
def sam_lambda_handler (event : Dict) (c : Ctx) (now : String) : Response :=
  match validate_request event with
  | (false, msg) => sam403 msg now
  | (true, _) =>
    let client_ip := get_client_ip event
    if truthy client_ip = false then sam400 now
    else
      match samRequestId c with
      | Except.error _ => sam500 now
      | Except.ok rid =>
        match samExtra event with
        | Except.error _ => sam500 now
        | Except.ok extra => sam200 client_ip rid now extra

/-- `validate_parameters` of the Greeter source (lines 11-33), on the already
`or {}`-normalised parameter value.  `Except.error` marks an exception that
escapes to the handler: `.get` on a truthy non-dict, `.strip` on a non-string
name value, or `int()` on a truthy non-string age value (a `TypeError`, which
the inner `except ValueError` does not catch). -/
def validate_parameters (query_params : PyVal) : Except Unit (Bool × Option String) :=
  if truthy query_params = false then
    Except.ok (false, some "No query parameters provided ya dodo")
  else
    match query_params with
    | PyVal.vobj qf =>
      match pyGetD qf "name" (PyVal.vstr "") with
      | PyVal.vstr nameRaw =>
        let name := pyStrip nameRaw
        let ageVal := pyGetD qf "age" (PyVal.vstr "")
        if name = "" then Except.ok (false, some "Name parameter is required ya dodo")
        else if truthy ageVal then
          match ageVal with
          | PyVal.vstr age_str =>
            match pyInt? age_str with
            | some age =>
              if age < 0 ∨ age > 150 then
                Except.ok (false, some "Age must be between 0 and 150")
              else Except.ok (true, none)
            | none => Except.ok (false, some "Age must be a valid number")
          | _ => Except.error ()
        else Except.ok (true, none)
      | _ => Except.error ()
    | _ => Except.error ()

/-- Does `log_request_metrics` (Greeter source, lines 35-48) run without
raising?  It raises exactly when the event's `requestContext` value, or the
context's `http` value, is present but not a dict. -/
def log_request_metrics_ok (event : Dict) : Bool :=
  match dictGet event "requestContext" with
  | none => true
  | some (PyVal.vobj rcf) =>
    match dictGet rcf "http" with
    | none => true
    | some (PyVal.vobj _) => true
    | some _ => false
  | some _ => false

/-- Python f-string rendering of a value.  The Greeter only interpolates the
`name` value, which validation guarantees is a string; `None` renders as
Python does; the dict case is unreachable from the handler. -/
def pyFmt : PyVal → String
  | PyVal.vstr s => s
  | PyVal.vnone => "None"
  | PyVal.vobj _ => ""

/-- `if age and int(age) < 18` (Greeter source, lines 84-87): 200 by default,
202 for a truthy age below 18; `int()` on a truthy non-parsing or non-string
age raises out of the handler body. -/
def greeter_status_code (age : PyVal) : Except Unit Int :=
  if truthy age then
    match age with
    | PyVal.vstr s =>
      match pyInt? s with
      | some n => Except.ok (if n < 18 then 202 else 200)
      | none => Except.error ()
    | _ => Except.error ()
  else Except.ok 200

/-- The Greeter 400 response (source lines 68-74): no `headers` key. -/
def greeter400 (msg : Option String) : Response :=
  { statusCode := 400
    headers := none
    body := [("error", optVal msg), ("status", PyVal.vstr "failed")] }

/-- The Greeter 500 response (source lines 108-116): no `headers` key, body
status "error". -/
def greeter500 : Response :=
  { statusCode := 500
    headers := none
    body := [("error", PyVal.vstr "Internal server error"),
             ("status", PyVal.vstr "error")] }

/-- The Greeter success response (source lines 89-106). -/
def greeter200 (code : Int) (name age : PyVal) (now : String) : Response :=
  { statusCode := code
    headers := some [("Content-Type", "application/json"),
                     ("X-Custom-Header", "Lambda Demo")]
    body := [("message", PyVal.vstr ("Hello " ++ pyFmt name ++ "!")),
             ("age_provided", age), ("processed_at", PyVal.vstr now),
             ("status", PyVal.vstr "success")] }

/-- `event.get('queryStringParameters', {}) or {}` (Greeter source, line 61). -/
def greeterQueryParams (event : Dict) : PyVal :=
  let q := pyGetD event "queryStringParameters" (PyVal.vobj [])
  if truthy q then q else PyVal.vobj []

/-- `lambda_handler` of the Greeter source (lines 50-116): validate the query
parameters, reject with 400 on failure, otherwise build the greeting; the
metrics log runs before the success return, so an exception there (or in
validation or the age branch) yields the 500 response. -/
def greeter_lambda_handler (event : Dict) (now : String) : Response :=
  let qp := greeterQueryParams event
  match validate_parameters qp with
  | Except.error _ => greeter500
  | Except.ok (false, msg) => greeter400 msg
  | Except.ok (true, _) =>
    match qp with
    | PyVal.vobj qf =>
      let name := pyGet qf "name"
      let age := pyGet qf "age"
      match greeter_status_code age with
      | Except.error _ => greeter500
      | Except.ok code =>
        if log_request_metrics_ok event then greeter200 code name age now
        else greeter500
    | _ => greeter500

/-- A string-to-string mapping as an association list of string values. -/
def strFields (l : List (String × String)) : List (String × PyVal) :=
  l.map (fun kv => (kv.1, PyVal.vstr kv.2))

/-- A string-to-string mapping as a `PyVal` dict. -/
def strDict (l : List (String × String)) : PyVal :=
  PyVal.vobj (strFields l)

/-- Lookup in a string-to-string mapping. -/
def lookupStr : List (String × String) → String → Option String
  | [], _ => none
  | kv :: rest, key => if kv.1 = key then some kv.2 else lookupStr rest key

/-- The modern gateway `http` sub-mapping of the data model: method, path and
source address, each optional. -/
structure HttpCtx where
  sourceIp : Option String
  method : Option String
  path : Option String

/-- The legacy gateway `identity` sub-mapping. -/
structure IdentityCtx where
  sourceIp : Option String

/-- The request-context mapping of the data model: a modern `http` sub-mapping
or a legacy `identity` sub-mapping, the API identifier and request id. -/
structure RequestCtx where
  http : Option HttpCtx
  identity : Option IdentityCtx
  apiId : Option String
  requestId : Option String

/-- An inbound event of the data model: an optional request context, an
optional header mapping and an optional query-parameter mapping
(string-valued, as the gateways deliver them). -/
structure Event where
  requestContext : Option RequestCtx
  headers : Option (List (String × String))
  queryStringParameters : Option (List (String × String))

/-- A dict entry present only when the optional value is. -/
def optField (k : String) : Option PyVal → List (String × PyVal)
  | some v => [(k, v)]
  | none => []

/-- Encode the modern `http` sub-mapping as a dict. -/
def encodeHttp (h : HttpCtx) : PyVal :=
  PyVal.vobj (optField "sourceIp" (h.sourceIp.map PyVal.vstr)
    ++ optField "method" (h.method.map PyVal.vstr)
    ++ optField "path" (h.path.map PyVal.vstr))

/-- Encode the legacy `identity` sub-mapping as a dict. -/
def encodeIdentity (i : IdentityCtx) : PyVal :=
  PyVal.vobj (optField "sourceIp" (i.sourceIp.map PyVal.vstr))

/-- Encode a request context as a dict. -/
def encodeRc (rc : RequestCtx) : PyVal :=
  PyVal.vobj (optField "http" (rc.http.map encodeHttp)
    ++ optField "identity" (rc.identity.map encodeIdentity)
    ++ optField "apiId" (rc.apiId.map PyVal.vstr)
    ++ optField "requestId" (rc.requestId.map PyVal.vstr))

/-- Encode a data-model event as the raw dict a handler receives. -/
def encodeEvent (e : Event) : Dict :=
  optField "requestContext" (e.requestContext.map encodeRc)
  ++ optField "headers" (e.headers.map strDict)
  ++ optField "queryStringParameters" (e.queryStringParameters.map strDict)

/-- `validate_parameters` on a string-to-string mapping, written directly over
`lookupStr`; the bridge for reasoning about data-model query parameters. -/
def validate_parameters_str (l : List (String × String)) : Bool × Option String :=
  if l.isEmpty then (false, some "No query parameters provided ya dodo")
  else if pyStrip ((lookupStr l "name").getD "") = "" then
    (false, some "Name parameter is required ya dodo")
  else if (lookupStr l "age").getD "" = "" then (true, none)
  else
    match pyInt? ((lookupStr l "age").getD "") with
    | some n =>
      if n < 0 ∨ n > 150 then (false, some "Age must be between 0 and 150")
      else (true, none)
    | none => (false, some "Age must be a valid number")

/-- The status code the Greeter computes from a validated parameter list. -/
def greeterCode (l : List (String × String)) : Int :=
  match lookupStr l "age" with
  | none => 200
  | some a =>
    match pyInt? a with
    | some n => if n < 18 then 202 else 200
    | none => 200

/-- A falsy invocation context (`None`): the request id falls back to the
fixed placeholder. -/
def ctxLocal : Ctx := { isTruthy := false, aws_request_id := none }

/-- A truthy invocation context without an `aws_request_id` attribute:
accessing it raises. -/
def ctxNoId : Ctx := { isTruthy := true, aws_request_id := none }

/-- A valid IP-Extractor event (modern gateway context with a source address). -/
def eC1 : Dict :=
  [("requestContext", PyVal.vobj
    [("http", PyVal.vobj [("sourceIp", PyVal.vstr "1.2.3.4")])])]

/-- An event whose request context carries an empty `http` sub-mapping while a
forwarded-for header is also present. -/
def eC2 : Dict :=
  [("requestContext", PyVal.vobj [("http", PyVal.vobj [])]),
   ("headers", PyVal.vobj [("x-forwarded-for", PyVal.vstr "9.9.9.9")])]

/-- An event carrying a request context with an (empty) `http` sub-object. -/
def eC4 : Dict :=
  [("requestContext", PyVal.vobj [("http", PyVal.vobj [])])]

/-- An event with no request context whose headers carry the forwarded-for
address only under a differently-cased key. -/
def eC9 : Dict :=
  [("headers", PyVal.vobj [("X-Forwarded-For", PyVal.vstr "1.2.3.4")])]

/-- A valid event whose modern gateway source address is the empty string. -/
def eC10 : Dict :=
  [("requestContext", PyVal.vobj
    [("http", PyVal.vobj [("sourceIp", PyVal.vstr "")])])]

/-- An event with an empty query-parameter mapping. -/
def eC3 : Dict := [("queryStringParameters", PyVal.vobj [])]

/-- The Ada/17 event of the data model. -/
def evAda17 : Event :=
  { requestContext := none, headers := none
    queryStringParameters := some [("name", "Ada"), ("age", "17")] }

/-- The Ada event of the data model with no age parameter. -/
def evAda : Event :=
  { requestContext := none, headers := none
    queryStringParameters := some [("name", "Ada")] }

/-- The Ada event of the data model with an empty-string age parameter. -/
def evAdaEmptyAge : Event :=
  { requestContext := none, headers := none
    queryStringParameters := some [("name", "Ada"), ("age", "")] }

theorem dictGet_append (a b : Dict) (k : String) :
    dictGet (a ++ b) k = (dictGet a k).or (dictGet b k) := by
  induction a with
  | nil => simp [dictGet]
  | cons kv rest ih =>
    by_cases h : kv.1 = k <;> simp [dictGet, h, ih]

theorem dictGet_optField (k k2 : String) (v : Option PyVal) :
    dictGet (optField k v) k2 = if k = k2 then v else none := by
  cases v <;> by_cases h : k = k2 <;> simp [optField, dictGet, h]

theorem dictGet_strFields (l : List (String × String)) (k : String) :
    dictGet (strFields l) k = (lookupStr l k).map PyVal.vstr := by
  induction l with
  | nil => rfl
  | cons kv rest ih =>
    simp only [strFields, List.map_cons] at ih ⊢
    by_cases h : kv.1 = k <;> simp [dictGet, lookupStr, h, ih]

theorem encodeEvent_rc (e : Event) :
    dictGet (encodeEvent e) "requestContext" = e.requestContext.map encodeRc := by
  cases h : e.requestContext <;>
    simp [encodeEvent, dictGet_append, dictGet_optField, h]

theorem encodeEvent_headers (e : Event) :
    dictGet (encodeEvent e) "headers" = e.headers.map strDict := by
  cases h : e.requestContext <;> cases h2 : e.headers <;>
    simp [encodeEvent, dictGet_append, dictGet_optField, h, h2]

theorem encodeEvent_qsp (e : Event) :
    dictGet (encodeEvent e) "queryStringParameters" =
      e.queryStringParameters.map strDict := by
  cases h : e.requestContext <;> cases h2 : e.headers <;>
    cases h3 : e.queryStringParameters <;>
    simp [encodeEvent, dictGet_append, dictGet_optField, h, h2, h3]

theorem encodeRc_http (rc : RequestCtx) :
    dictGet (match encodeRc rc with | PyVal.vobj f => f | _ => []) "http" =
      rc.http.map encodeHttp := by
  cases h : rc.http <;>
    simp [encodeRc, dictGet_append, dictGet_optField, h]

/-- The metrics logger never raises on a data-model event: the request context
and its `http` entry are dicts whenever present. -/
theorem metrics_ok_encode (e : Event) :
    log_request_metrics_ok (encodeEvent e) = true := by
  rcases e with ⟨rc, hs, qs⟩
  cases rc with
  | none =>
    cases hs <;> cases qs <;>
      simp [log_request_metrics_ok, encodeEvent, optField, dictGet]
  | some r =>
    rcases r with ⟨oh, oi, oa, orid⟩
    cases oh <;> cases oi <;> cases oa <;> cases orid <;>
      simp [log_request_metrics_ok, encodeEvent, encodeRc, encodeHttp,
            dictGet_append, dictGet_optField]

theorem pyGetD_strFields (l : List (String × String)) (k : String) :
    pyGetD (strFields l) k (PyVal.vstr "")
      = PyVal.vstr ((lookupStr l k).getD "") := by
  rw [pyGetD, dictGet_strFields]
  rcases lookupStr l k with _ | s <;> rfl

theorem truthy_strDict (l : List (String × String)) :
    truthy (strDict l) = !l.isEmpty := by
  cases l <;> rfl

theorem truthy_vstr (s : String) :
    truthy (PyVal.vstr s) = if s = "" then false else true := rfl

set_option maxRecDepth 8192 in
theorem validate_parameters_strDict (l : List (String × String)) :
    validate_parameters (strDict l) = Except.ok (validate_parameters_str l) := by
  cases l with
  | nil => rfl
  | cons kv rest =>
    show validate_parameters (PyVal.vobj (strFields (kv :: rest))) = _
    have ht : truthy (PyVal.vobj (strFields (kv :: rest))) = true := rfl
    have hn := pyGetD_strFields (kv :: rest) "name"
    have ha := pyGetD_strFields (kv :: rest) "age"
    rcases hi : pyInt? ((lookupStr (kv :: rest) "age").getD "") with _ | n <;>
      by_cases hname : pyStrip ((lookupStr (kv :: rest) "name").getD "") = "" <;>
        by_cases hage : (lookupStr (kv :: rest) "age").getD "" = "" <;>
          simp [validate_parameters, validate_parameters_str, ht, hn, ha,
                truthy_vstr, hname, hage, hi, apply_ite] <;>
          split <;> omega

theorem pyGet_strFields (l : List (String × String)) (k : String) :
    pyGet (strFields l) k
      = match lookupStr l k with
        | some s => PyVal.vstr s
        | none => PyVal.vnone := by
  rw [pyGet, dictGet_strFields]
  rcases lookupStr l k with _ | s <;> rfl

theorem greeterQueryParams_encode (e : Event) (l : List (String × String))
    (h : e.queryStringParameters = some l) (hl : l ≠ []) :
    greeterQueryParams (encodeEvent e) = strDict l := by
  unfold greeterQueryParams pyGetD
  rw [encodeEvent_qsp, h]
  cases l with
  | nil => exact absurd rfl hl
  | cons kv rest => rfl

/-- What a successful validation says about the parameter list: nonempty,
a nonempty stripped name, and an age that is empty-or-absent or parses into
the accepted range. -/
theorem vps_true_facts (l : List (String × String))
    (hv : validate_parameters_str l = (true, none)) :
    l ≠ [] ∧ pyStrip ((lookupStr l "name").getD "") ≠ ""
      ∧ ((lookupStr l "age").getD "" = ""
         ∨ ∃ n, pyInt? ((lookupStr l "age").getD "") = some n ∧ 0 ≤ n ∧ n ≤ 150) := by
  have hl : l ≠ [] := by
    intro h
    rw [h] at hv
    simp [validate_parameters_str] at hv
  refine ⟨hl, ?_⟩
  unfold validate_parameters_str at hv
  rw [if_neg (by simp [hl])] at hv
  by_cases h1 : pyStrip ((lookupStr l "name").getD "") = ""
  · rw [if_pos h1] at hv; simp at hv
  rw [if_neg h1] at hv
  refine ⟨h1, ?_⟩
  by_cases h2 : (lookupStr l "age").getD "" = ""
  · exact Or.inl h2
  rw [if_neg h2] at hv
  rcases hpi : pyInt? ((lookupStr l "age").getD "") with _ | n
  · rw [hpi] at hv; simp at hv
  · rw [hpi] at hv
    by_cases h3 : n < 0 ∨ n > 150
    · simp [h3] at hv
    · exact Or.inr ⟨n, rfl, by omega⟩

theorem greeter_status_code_valid (l : List (String × String))
    (hv : validate_parameters_str l = (true, none)) :
    greeter_status_code (pyGet (strFields l) "age") = Except.ok (greeterCode l) := by
  rw [pyGet_strFields]
  rcases h : lookupStr l "age" with _ | a
  · simp [greeter_status_code, greeterCode, truthy, h]
  · by_cases ha : a = ""
    · subst ha
      simp [greeter_status_code, greeterCode, truthy_vstr, h]
      rfl
    · rcases (vps_true_facts l hv).2.2 with h2 | ⟨n, hpi, _, _⟩
      · rw [h] at h2; simp at h2; exact absurd h2 ha
      · rw [h] at hpi
        simp only [Option.getD_some] at hpi
        simp [greeter_status_code, greeterCode, truthy_vstr, h, ha, hpi]

/-- The Greeter on a data-model event whose query parameters validate: it
answers with the success response, the computed status code, and the raw
name/age parameter values. -/
theorem greeter_encode_valid (e : Event) (l : List (String × String)) (now : String)
    (hq : e.queryStringParameters = some l)
    (hv : validate_parameters_str l = (true, none)) :
    greeter_lambda_handler (encodeEvent e) now
      = greeter200 (greeterCode l) (pyGet (strFields l) "name")
          (pyGet (strFields l) "age") now := by
  have hl : l ≠ [] := (vps_true_facts l hv).1
  have hqp := greeterQueryParams_encode e l hq hl
  have hsc := greeter_status_code_valid l hv
  have hm := metrics_ok_encode e
  simp only [greeter_lambda_handler, hqp, validate_parameters_strDict, hv]
  simp only [strDict, hsc, hm, if_true]

/-- Every IP-Extractor answer is one of the four response shapes. -/
theorem sam_cases (e : Dict) (c : Ctx) (now : String) :
    (∃ m, sam_lambda_handler e c now = sam403 m now)
    ∨ sam_lambda_handler e c now = sam400 now
    ∨ sam_lambda_handler e c now = sam500 now
    ∨ ∃ ip rid extra, sam_lambda_handler e c now = sam200 ip rid now extra := by
  simp only [sam_lambda_handler]
  rcases hv : validate_request e with ⟨b, m⟩
  cases b
  · exact Or.inl ⟨m, rfl⟩
  · by_cases hip : truthy (get_client_ip e) = false
    · exact Or.inr (Or.inl (by simp [hip]))
    · rcases hr : samRequestId c with u | rid
      · exact Or.inr (Or.inr (Or.inl (by simp [hip, hr])))
      · rcases hx : samExtra e with u | extra
        · exact Or.inr (Or.inr (Or.inl (by simp [hip, hr, hx])))
        · exact Or.inr (Or.inr (Or.inr
            ⟨get_client_ip e, rid, extra, by simp [hip, hr, hx]⟩))

theorem greeter_status_code_mem (age : PyVal) (code : Int)
    (h : greeter_status_code age = Except.ok code) :
    code = 200 ∨ code = 202 := by
  unfold greeter_status_code at h
  split at h
  · split at h
    · split at h
      · simp only [Except.ok.injEq] at h
        split at h <;> omega
      · simp at h
    · simp at h
  · simp only [Except.ok.injEq] at h
    omega

/-- Every Greeter answer is one of the three response shapes, and a success
carries status code 200 or 202. -/
theorem greeter_cases (e : Dict) (now : String) :
    (∃ m, greeter_lambda_handler e now = greeter400 m)
    ∨ greeter_lambda_handler e now = greeter500
    ∨ ∃ code nm ag, (code = 200 ∨ code = 202)
        ∧ greeter_lambda_handler e now = greeter200 code nm ag now := by
  rcases hv : validate_parameters (greeterQueryParams e) with u | ⟨b, m⟩
  · exact Or.inr (Or.inl (by simp [greeter_lambda_handler, hv]))
  · cases b
    · exact Or.inl ⟨m, by simp [greeter_lambda_handler, hv]⟩
    · rcases hq : greeterQueryParams e with _ | s | qf
      · have hv2 : validate_parameters PyVal.vnone = Except.ok (true, m) := by
          rw [← hq]; exact hv
        exact Or.inr (Or.inl (by simp [greeter_lambda_handler, hq, hv2]))
      · have hv2 : validate_parameters (PyVal.vstr s) = Except.ok (true, m) := by
          rw [← hq]; exact hv
        exact Or.inr (Or.inl (by simp [greeter_lambda_handler, hq, hv2]))
      · have hv2 : validate_parameters (PyVal.vobj qf) = Except.ok (true, m) := by
          rw [← hq]; exact hv
        rcases hs : greeter_status_code (pyGet qf "age") with u | code
        · exact Or.inr (Or.inl (by simp [greeter_lambda_handler, hq, hv2, hs]))
        · by_cases hm : log_request_metrics_ok e = true
          · exact Or.inr (Or.inr ⟨code, pyGet qf "name", pyGet qf "age",
              greeter_status_code_mem _ _ hs,
              by simp [greeter_lambda_handler, hq, hv2, hs, hm]⟩)
          · exact Or.inr (Or.inl (by simp [greeter_lambda_handler, hq, hv2, hs, hm]))

/-- C2 counterexample: with a request context whose `http` sub-mapping has no
source address, `get_client_ip` answers absent without falling through to the
`x-forwarded-for` header, even though that attempt would yield an address; so
it is not the case that absence is returned only when none of the three
attempts yields an address. -/
theorem claim2_counterexample :
    get_client_ip eC2 = PyVal.vnone
    ∧ headersXff eC2 = PyVal.vstr "9.9.9.9" :=
  ⟨rfl, rfl⟩

/-- C2 amended: `get_client_ip` first consults the request context; a present
`http` key short-circuits to its `sourceIp` (even when absent), an `identity`
key short-circuits likewise, and only an event whose request context is
missing, or carries neither key, falls through to the first comma-separated
entry of the `x-forwarded-for` header, trimmed. -/
theorem claim2_lookup_order (event : Dict) :
    (hasKey event "requestContext" = false →
      get_client_ip event = headersXff event)
    ∧ (∀ rcf hf, dictGet event "requestContext" = some (PyVal.vobj rcf) →
        dictGet rcf "http" = some (PyVal.vobj hf) →
        get_client_ip event = pyGet hf "sourceIp")
    ∧ (∀ rcf idf, dictGet event "requestContext" = some (PyVal.vobj rcf) →
        hasKey rcf "http" = false →
        dictGet rcf "identity" = some (PyVal.vobj idf) →
        get_client_ip event = pyGet idf "sourceIp")
    ∧ (∀ rcf, dictGet event "requestContext" = some (PyVal.vobj rcf) →
        hasKey rcf "http" = false → hasKey rcf "identity" = false →
        get_client_ip event = headersXff event) := by
  refine ⟨?_, ?_, ?_, ?_⟩
  · intro h
    have h2 : dictGet event "requestContext" = none := by
      simpa [hasKey] using h
    simp [get_client_ip, h2]
  · intro rcf hf h1 h2
    have hk : hasKey rcf "http" = true := by simp [hasKey, h2]
    simp [get_client_ip, h1, hk, h2]
  · intro rcf idf h1 h2 h3
    have hk : hasKey rcf "identity" = true := by simp [hasKey, h3]
    simp [get_client_ip, h1, h2, hk, h3]
  · intro rcf h1 h2 h3
    simp [get_client_ip, h1, h2, h3]

/-- C2 witness: with the header `x-forwarded-for: "1.2.3.4, 5.6.7.8"` and no
gateway context fields, the extracted IP is `"1.2.3.4"`. -/
theorem claim2_witness :
    get_client_ip [("headers", PyVal.vobj
        [("x-forwarded-for", PyVal.vstr "1.2.3.4, 5.6.7.8")])]
      = PyVal.vstr "1.2.3.4" := by
  have h := (claim2_lookup_order [("headers", PyVal.vobj
      [("x-forwarded-for", PyVal.vstr "1.2.3.4, 5.6.7.8")])]).1 rfl
  rw [h]
  rfl

/-- C9 counterexample: an event with no request context and the address only
under `X-Forwarded-For` makes `get_client_ip` return absent, but the handler
answers 403 (validation rejects the missing request context before IP
extraction), not the claimed 400. -/
theorem claim9_counterexample :
    get_client_ip eC9 = PyVal.vnone
    ∧ (sam_lambda_handler eC9 ctxLocal "T").statusCode = 403 :=
  ⟨rfl, rfl⟩

/-- C9 amended: the forwarded-for lookup matches only the exact lowercase key
`x-forwarded-for`.  An event with no request context is rejected with 403
before IP extraction; an event that passes validation (a request context with
a truthy API identifier and neither `http` nor `identity`) whose headers lack
the lowercase key yields an absent IP and a 400 response. -/
theorem claim9_case_sensitive (hs : List (String × String)) (apiId now : String)
    (c : Ctx) (hx : lookupStr hs "x-forwarded-for" = none) (ha : apiId ≠ "") :
    get_client_ip [("requestContext", PyVal.vobj [("apiId", PyVal.vstr apiId)]),
        ("headers", strDict hs)] = PyVal.vnone
    ∧ (sam_lambda_handler
        [("requestContext", PyVal.vobj [("apiId", PyVal.vstr apiId)]),
         ("headers", strDict hs)] c now).statusCode = 400
    ∧ (∀ e2 : Dict, hasKey e2 "requestContext" = false →
        (sam_lambda_handler e2 c now).statusCode = 403) := by
  have hxk : hasKey (strFields hs) "x-forwarded-for" = false := by
    simp [hasKey, dictGet_strFields, hx]
  have hip : get_client_ip
      [("requestContext", PyVal.vobj [("apiId", PyVal.vstr apiId)]),
       ("headers", strDict hs)] = PyVal.vnone := by
    simp [get_client_ip, dictGet, hasKey, headersXff, strDict, hxk,
          dictGet_strFields, hx]
  refine ⟨hip, ?_, ?_⟩
  · have hval : validate_request
        [("requestContext", PyVal.vobj [("apiId", PyVal.vstr apiId)]),
         ("headers", strDict hs)] = (true, "") := by
      simp [validate_request, hasKey, dictGet, pyGet, truthy_vstr, ha, truthy]
    simp [sam_lambda_handler, hval, hip, truthy, sam400]
  · intro e2 h2
    have hval : validate_request e2 = (false, "Request not from API Gateway") := by
      simp [validate_request, h2]
    simp [sam_lambda_handler, hval, sam403]

/-- C9 witness: the concrete differently-cased header key is not matched and
the validated event is answered with 400. -/
theorem claim9_witness :
    lookupStr [("X-Forwarded-For", "1.2.3.4")] "x-forwarded-for" = none
    ∧ get_client_ip [("requestContext", PyVal.vobj [("apiId", PyVal.vstr "x")]),
        ("headers", strDict [("X-Forwarded-For", "1.2.3.4")])] = PyVal.vnone
    ∧ (sam_lambda_handler
        [("requestContext", PyVal.vobj [("apiId", PyVal.vstr "x")]),
         ("headers", strDict [("X-Forwarded-For", "1.2.3.4")])]
        ctxLocal "T").statusCode = 400 := by
  have h := claim9_case_sensitive [("X-Forwarded-For", "1.2.3.4")] "x" "T"
    ctxLocal rfl (by decide)
  exact ⟨rfl, h.1, h.2.1⟩

/-- C10: whenever validation succeeds but the extracted client IP is the empty
string, the handler treats it like an absent IP: a 400 response with the
"Could not determine client IP" error and a failed status, never a success
carrying an empty address. -/
theorem claim10_empty_ip (e : Dict) (c : Ctx) (now : String)
    (hval : (validate_request e).1 = true)
    (hip : get_client_ip e = PyVal.vstr "") :
    (sam_lambda_handler e c now).statusCode = 400
    ∧ bodyStr (sam_lambda_handler e c now) "error"
        = some "Could not determine client IP"
    ∧ statusField (sam_lambda_handler e c now) = some "failed" := by
  rcases hb : validate_request e with ⟨b, m⟩
  rw [hb] at hval
  subst hval
  have h400 : sam_lambda_handler e c now = sam400 now := by
    simp [sam_lambda_handler, hb, hip, truthy]
  rw [h400]
  exact ⟨rfl, rfl, rfl⟩

/-- C10 witness: a modern gateway event whose source address is the empty
string is answered with the 400 "Could not determine client IP" response. -/
theorem claim10_witness :
    (sam_lambda_handler eC10 ctxLocal "T").statusCode = 400
    ∧ bodyStr (sam_lambda_handler eC10 ctxLocal "T") "error"
        = some "Could not determine client IP" := by
  have h := claim10_empty_ip eC10 ctxLocal "T" rfl rfl
  exact ⟨h.1, h.2.1⟩

/-- C4 counterexample: an event whose request context carries an `http`
sub-object that is empty fails validation (truthiness, not presence, is
checked) and is answered 403, though the claim says validation fails only
when both `http` and the API identifier are lacking. -/
theorem claim4_counterexample :
    validate_request eC4 = (false, "Invalid API Gateway request context")
    ∧ dictGet eC4 "requestContext"
        = some (PyVal.vobj [("http", PyVal.vobj [])])
    ∧ (sam_lambda_handler eC4 ctxLocal "T").statusCode = 403 :=
  ⟨rfl, rfl, rfl⟩

/-- C4 amended: the handler answers 403 exactly when validation fails, and
validation fails exactly when the request-context key is missing, or its value
is a mapping whose `http` and `apiId` entries are both absent or falsy (the
code tests truthiness, so empty sub-mappings and empty strings also fail), or
its value is not a mapping at all. -/
theorem claim4_fail_iff (e : Dict) (c : Ctx) (now : String) :
    ((sam_lambda_handler e c now).statusCode = 403
      ↔ (validate_request e).1 = false)
    ∧ ((validate_request e).1 = false
      ↔ (hasKey e "requestContext" = false
         ∨ (∃ rcf, dictGet e "requestContext" = some (PyVal.vobj rcf)
             ∧ truthy (pyGet rcf "http") = false
             ∧ truthy (pyGet rcf "apiId") = false)
         ∨ (∃ v, dictGet e "requestContext" = some v
             ∧ ∀ f, v ≠ PyVal.vobj f))) := by
  constructor
  · rcases hb : validate_request e with ⟨b, m⟩
    cases b
    · simp [sam_lambda_handler, hb, sam403]
    · simp only [hb]
      constructor
      · intro hsc
        exfalso
        by_cases hip : truthy (get_client_ip e) = false
        · have h2 : sam_lambda_handler e c now = sam400 now := by
            simp [sam_lambda_handler, hb, hip]
          rw [h2] at hsc; simp [sam400] at hsc
        · rcases hr : samRequestId c with u | rid
          · have h2 : sam_lambda_handler e c now = sam500 now := by
              simp [sam_lambda_handler, hb, hip, hr]
            rw [h2] at hsc; simp [sam500] at hsc
          · rcases hxx : samExtra e with u | extra
            · have h2 : sam_lambda_handler e c now = sam500 now := by
                simp [sam_lambda_handler, hb, hip, hr, hxx]
              rw [h2] at hsc; simp [sam500] at hsc
            · have h2 : sam_lambda_handler e c now
                  = sam200 (get_client_ip e) rid now extra := by
                simp [sam_lambda_handler, hb, hip, hr, hxx]
              rw [h2] at hsc; simp [sam200] at hsc
      · intro hfalse
        simp at hfalse
  · by_cases hk : hasKey e "requestContext" = false
    · simp [validate_request, hk]
    · have hk2 : hasKey e "requestContext" = true := by
        cases h : hasKey e "requestContext"
        · exact absurd h hk
        · rfl
      rcases hrc : dictGet e "requestContext" with _ | v
      · rw [hasKey, hrc] at hk2
        simp at hk2
      · rcases v with _ | s | rcf
        · have hv : (validate_request e).1 = false := by
            simp [validate_request, hk2, hrc]
          exact ⟨fun _ => Or.inr (Or.inr ⟨PyVal.vnone, rfl, by
            intro f h; cases h⟩), fun _ => hv⟩
        · have hv : (validate_request e).1 = false := by
            simp [validate_request, hk2, hrc]
          exact ⟨fun _ => Or.inr (Or.inr ⟨PyVal.vstr s, rfl, by
            intro f h; cases h⟩), fun _ => hv⟩
        · by_cases hcond : truthy (pyGet rcf "http") = false
              ∧ truthy (pyGet rcf "apiId") = false
          · have hv : (validate_request e).1 = false := by
              simp [validate_request, hk2, hrc, hcond]
            exact ⟨fun _ => Or.inr (Or.inl ⟨rcf, rfl, hcond.1, hcond.2⟩),
              fun _ => hv⟩
          · have hv : (validate_request e).1 = true := by
              simp [validate_request, hk2, hrc, hcond]
            constructor
            · intro h
              rw [hv] at h
              cases h
            · rintro (h | ⟨rcf2, hrc2, h1, h2⟩ | ⟨v2, hrc2, hne⟩)
              · rw [h] at hk2; cases hk2
              · injection hrc2 with h3
                injection h3 with h4
                subst h4
                exact absurd ⟨h1, h2⟩ hcond
              · injection hrc2 with h3
                exact absurd h3.symm (hne rcf)

/-- C1 counterexample: a reachable 500 response of the IP-Extractor (valid
event, truthy invocation context without an `aws_request_id` attribute)
carries body status "failed", not the claimed "error". -/
theorem claim1_counterexample :
    (sam_lambda_handler eC1 ctxNoId "T").statusCode = 500
    ∧ statusField (sam_lambda_handler eC1 ctxNoId "T") = some "failed"
    ∧ statusField (sam_lambda_handler eC1 ctxNoId "T") ≠ some "error" :=
  ⟨rfl, rfl, by decide⟩

/-- C1 amended: every response body carries a `status` field consistent with
the class, except that the IP-Extractor's 500 carries "failed": IP-Extractor
responses read "success" on 200 and "failed" on 400, 403 and 500; Greeter
responses read "error" on 500, "failed" on 400, "success" otherwise. -/
theorem claim1_status_roundtrip (e : Dict) (c : Ctx) (now : String) :
    statusField (sam_lambda_handler e c now)
      = some (if (sam_lambda_handler e c now).statusCode = 200
              then "success" else "failed")
    ∧ statusField (greeter_lambda_handler e now)
      = some (if (greeter_lambda_handler e now).statusCode = 500 then "error"
              else if (greeter_lambda_handler e now).statusCode = 400
              then "failed" else "success") := by
  constructor
  · rcases sam_cases e c now with ⟨m, h⟩ | h | h | ⟨ip, rid, extra, h⟩ <;> rw [h]
    · simp [sam403, statusField, bodyStr, dictGet]
    · simp [sam400, statusField, bodyStr, dictGet]
    · simp [sam500, statusField, bodyStr, dictGet]
    · simp [sam200, statusField, bodyStr, dictGet_append, dictGet]
  · rcases greeter_cases e now with ⟨m2, h⟩ | h | ⟨code, nm, ag, hc, h⟩ <;> rw [h]
    · simp [greeter400, statusField, bodyStr, dictGet]
    · simp [greeter500, statusField, bodyStr, dictGet]
    · rcases hc with hc | hc <;> subst hc <;>
        simp [greeter200, statusField, bodyStr, dictGet]

/-- C3 counterexample: the Greeter's 400 response (here on an empty query
mapping) carries no `headers` field at all, against the claimed
always-present headers mapping. -/
theorem claim3_counterexample :
    (greeter_lambda_handler eC3 "T").statusCode = 400
    ∧ (greeter_lambda_handler eC3 "T").headers = none :=
  ⟨rfl, rfl⟩

/-- C3 amended: responses carry an integer status code from
\x7b200, 400, 403, 500\x7d for the IP-Extractor (headers always present) and
from \x7b200, 202, 400, 500\x7d for the Greeter, whose headers are present
exactly on the success responses and omitted on its 400 and 500 responses;
202 occurs only in the Greeter and 403 only in the IP-Extractor. -/
theorem claim3_response_shape (e : Dict) (c : Ctx) (now : String) :
    ((sam_lambda_handler e c now).statusCode = 200
      ∨ (sam_lambda_handler e c now).statusCode = 400
      ∨ (sam_lambda_handler e c now).statusCode = 403
      ∨ (sam_lambda_handler e c now).statusCode = 500)
    ∧ (sam_lambda_handler e c now).headers.isSome = true
    ∧ ((greeter_lambda_handler e now).statusCode = 200
      ∨ (greeter_lambda_handler e now).statusCode = 202
      ∨ (greeter_lambda_handler e now).statusCode = 400
      ∨ (greeter_lambda_handler e now).statusCode = 500)
    ∧ ((greeter_lambda_handler e now).headers = none
        ↔ ((greeter_lambda_handler e now).statusCode = 400
           ∨ (greeter_lambda_handler e now).statusCode = 500)) := by
  refine ⟨?_, ?_, ?_, ?_⟩
  · rcases sam_cases e c now with ⟨m, h⟩ | h | h | ⟨ip, rid, extra, h⟩ <;>
      rw [h] <;> simp [sam403, sam400, sam500, sam200]
  · rcases sam_cases e c now with ⟨m, h⟩ | h | h | ⟨ip, rid, extra, h⟩ <;>
      rw [h] <;> simp [sam403, sam400, sam500, sam200]
  · rcases greeter_cases e now with ⟨m2, h⟩ | h | ⟨code, nm, ag, hc, h⟩ <;> rw [h]
    · simp [greeter400]
    · simp [greeter500]
    · rcases hc with hc | hc <;> subst hc <;> simp [greeter200]
  · rcases greeter_cases e now with ⟨m2, h⟩ | h | ⟨code, nm, ag, hc, h⟩ <;> rw [h]
    · simp [greeter400]
    · simp [greeter500]
    · rcases hc with hc | hc <;> subst hc <;> simp [greeter200]

theorem ne_nil_isEmpty (l : List (String × String)) (h : l ≠ []) :
    l.isEmpty = false := by
  cases l with
  | nil => exact absurd rfl h
  | cons a b => rfl

/-- C5: `validate_parameters` on a string-to-string parameter mapping: empty
mapping rejected with the no-query-parameters message; blank stripped name
rejected with the name-required message; a present nonempty age must parse to
an integer within 0..150, with a type-specific or range-specific message
otherwise; every other mapping is accepted. -/
theorem claim5_validate_parameters (l : List (String × String)) :
    (l = [] → validate_parameters (strDict l)
        = Except.ok (false, some "No query parameters provided ya dodo"))
    ∧ (pyStrip ((lookupStr l "name").getD "") = "" → l ≠ [] →
        validate_parameters (strDict l)
          = Except.ok (false, some "Name parameter is required ya dodo"))
    ∧ (∀ a, lookupStr l "age" = some a → a ≠ "" →
        pyStrip ((lookupStr l "name").getD "") ≠ "" →
        ((pyInt? a = none →
            validate_parameters (strDict l)
              = Except.ok (false, some "Age must be a valid number"))
         ∧ (∀ n, pyInt? a = some n → (n < 0 ∨ 150 < n) →
              validate_parameters (strDict l)
                = Except.ok (false, some "Age must be between 0 and 150"))
         ∧ (∀ n, pyInt? a = some n → 0 ≤ n → n ≤ 150 →
              validate_parameters (strDict l) = Except.ok (true, none))))
    ∧ (pyStrip ((lookupStr l "name").getD "") ≠ "" →
        (lookupStr l "age").getD "" = "" → l ≠ [] →
        validate_parameters (strDict l) = Except.ok (true, none)) := by
  refine ⟨?_, ?_, ?_, ?_⟩
  · intro h; subst h; rfl
  · intro hname hl
    rw [validate_parameters_strDict]
    simp [validate_parameters_str, ne_nil_isEmpty l hl, hname]
  · intro a ha hane hname
    have hl : l ≠ [] := by
      intro h; rw [h] at ha; simp [lookupStr] at ha
    refine ⟨?_, ?_, ?_⟩
    · intro hpi
      rw [validate_parameters_strDict]
      simp [validate_parameters_str, ne_nil_isEmpty l hl, hname, ha, hane, hpi]
    · intro n hpi hrange
      rw [validate_parameters_strDict]
      simp [validate_parameters_str, ne_nil_isEmpty l hl, hname, ha, hane, hpi,
            hrange]
    · intro n hpi h0 h150
      rw [validate_parameters_strDict]
      have hno : ¬(n < 0 ∨ n > 150) := by omega
      simp [validate_parameters_str, ne_nil_isEmpty l hl, hname, ha, hane, hpi,
            hno]
  · intro hname hage hl
    rw [validate_parameters_strDict]
    simp [validate_parameters_str, ne_nil_isEmpty l hl, hname, hage]

/-- C5 witness: age "200" is rejected with the range message and a 400
response; the empty mapping is rejected with the no-query-parameters
message. -/
theorem claim5_witness :
    validate_parameters (strDict [("name", "Ada"), ("age", "200")])
        = Except.ok (false, some "Age must be between 0 and 150")
    ∧ validate_parameters (strDict [])
        = Except.ok (false, some "No query parameters provided ya dodo")
    ∧ (greeter_lambda_handler
        [("queryStringParameters", strDict [("name", "Ada"), ("age", "200")])]
        "T").statusCode = 400 := by
  refine ⟨?_, (claim5_validate_parameters []).1 rfl, by rfl⟩
  exact ((claim5_validate_parameters [("name", "Ada"), ("age", "200")]).2.2.1 "200"
    rfl (by decide) (by decide)).2.1 200 (by rfl) (by decide)

theorem greeterCode_eq_202 (l : List (String × String)) :
    greeterCode l = 202
      ↔ ∃ a n, lookupStr l "age" = some a ∧ a ≠ ""
          ∧ pyInt? a = some n ∧ n < 18 := by
  unfold greeterCode
  rcases ha : lookupStr l "age" with _ | a
  · simp
  · rcases hpi : pyInt? a with _ | n
    · simp [hpi]
    · have hane : a ≠ "" := by
        intro h; subst h
        rw [show pyInt? "" = none from rfl] at hpi
        cases hpi
      by_cases hn18 : n < 18 <;> simp [hpi, hn18, hane]

theorem greeterCode_mem (l : List (String × String)) :
    greeterCode l = 200 ∨ greeterCode l = 202 := by
  rcases ha : lookupStr l "age" with _ | a
  · exact Or.inl (by simp [greeterCode, ha])
  · rcases hpi : pyInt? a with _ | n
    · exact Or.inl (by simp [greeterCode, ha, hpi])
    · by_cases hn18 : n < 18
      · exact Or.inr (by simp [greeterCode, ha, hpi, hn18])
      · exact Or.inl (by simp [greeterCode, ha, hpi, hn18])

/-- C6: on a data-model event whose query parameters validate, the Greeter
answers 200 by default and 202 exactly when an age parameter is present,
nonempty and parses below 18, with the greeting interpolating the name and a
success status. -/
theorem claim6_age_branching (e : Event) (l : List (String × String))
    (s now : String)
    (hq : e.queryStringParameters = some l)
    (hv : validate_parameters (strDict l) = Except.ok (true, none))
    (hn : lookupStr l "name" = some s) :
    ((greeter_lambda_handler (encodeEvent e) now).statusCode = 202
      ↔ ∃ a n, lookupStr l "age" = some a ∧ a ≠ ""
          ∧ pyInt? a = some n ∧ n < 18)
    ∧ ((greeter_lambda_handler (encodeEvent e) now).statusCode = 200
      ∨ (greeter_lambda_handler (encodeEvent e) now).statusCode = 202)
    ∧ bodyStr (greeter_lambda_handler (encodeEvent e) now) "message"
        = some ("Hello " ++ s ++ "!")
    ∧ statusField (greeter_lambda_handler (encodeEvent e) now)
        = some "success" := by
  have hvs : validate_parameters_str l = (true, none) := by
    have h2 := validate_parameters_strDict l
    rw [hv] at h2
    injection h2 with h3
    exact h3.symm
  rw [greeter_encode_valid e l now hq hvs]
  refine ⟨?_, ?_, ?_, ?_⟩
  · exact greeterCode_eq_202 l
  · simpa [greeter200] using greeterCode_mem l
  · simp [greeter200, bodyStr, dictGet, pyGet_strFields, hn, pyFmt]
  · simp [greeter200, statusField, bodyStr, dictGet]

/-- C6 witness: name Ada and age "17" yield 202 and "Hello Ada!". -/
theorem claim6_witness :
    (greeter_lambda_handler (encodeEvent evAda17) "T").statusCode = 202
    ∧ bodyStr (greeter_lambda_handler (encodeEvent evAda17) "T") "message"
        = some "Hello Ada!" := by
  have h := claim6_age_branching evAda17 [("name", "Ada"), ("age", "17")]
    "Ada" "T" rfl (by rfl) rfl
  exact ⟨h.1.mpr ⟨"17", 17, rfl, by decide, by rfl, by decide⟩, h.2.2.1⟩

/-- C7: a validated name with no age key at all yields a 200 success whose
`age_provided` field is null (Python `None`). -/
theorem claim7_no_age (e : Event) (l : List (String × String)) (s now : String)
    (hq : e.queryStringParameters = some l)
    (hn : lookupStr l "name" = some s) (hs : pyStrip s ≠ "")
    (ha : lookupStr l "age" = none) :
    (greeter_lambda_handler (encodeEvent e) now).statusCode = 200
    ∧ dictGet (greeter_lambda_handler (encodeEvent e) now).body "age_provided"
        = some PyVal.vnone
    ∧ statusField (greeter_lambda_handler (encodeEvent e) now)
        = some "success" := by
  have hl : l ≠ [] := by
    intro h; rw [h] at hn; simp [lookupStr] at hn
  have hvs : validate_parameters_str l = (true, none) := by
    simp [validate_parameters_str, ne_nil_isEmpty l hl, hn, hs, ha]
  rw [greeter_encode_valid e l now hq hvs]
  refine ⟨?_, ?_, ?_⟩
  · simp [greeter200, greeterCode, ha]
  · simp [greeter200, dictGet, pyGet_strFields, ha]
  · simp [greeter200, statusField, bodyStr, dictGet]

/-- C7 witness: name Ada without an age yields 200 with a null
`age_provided`. -/
theorem claim7_witness :
    (greeter_lambda_handler (encodeEvent evAda) "T").statusCode = 200
    ∧ dictGet (greeter_lambda_handler (encodeEvent evAda) "T").body
        "age_provided" = some PyVal.vnone := by
  have h := claim7_no_age evAda [("name", "Ada")] "Ada" "T" rfl rfl
    (by decide) rfl
  exact ⟨h.1, h.2.1⟩

/-- C8: a validated name with an age key holding the empty string is accepted
(the range check is skipped), answered 200 rather than 202, and the
`age_provided` field echoes the empty string rather than null. -/
theorem claim8_empty_age (e : Event) (l : List (String × String)) (s now : String)
    (hq : e.queryStringParameters = some l)
    (hn : lookupStr l "name" = some s) (hs : pyStrip s ≠ "")
    (ha : lookupStr l "age" = some "") :
    (greeter_lambda_handler (encodeEvent e) now).statusCode = 200
    ∧ dictGet (greeter_lambda_handler (encodeEvent e) now).body "age_provided"
        = some (PyVal.vstr "")
    ∧ statusField (greeter_lambda_handler (encodeEvent e) now)
        = some "success" := by
  have hl : l ≠ [] := by
    intro h; rw [h] at hn; simp [lookupStr] at hn
  have hvs : validate_parameters_str l = (true, none) := by
    simp [validate_parameters_str, ne_nil_isEmpty l hl, hn, hs, ha]
  rw [greeter_encode_valid e l now hq hvs]
  refine ⟨?_, ?_, ?_⟩
  · simp [greeter200, greeterCode, ha, show pyInt? "" = none from rfl]
  · simp [greeter200, dictGet, pyGet_strFields, ha]
  · simp [greeter200, statusField, bodyStr, dictGet]

/-- C8 witness: name Ada with age "" yields 200 and `age_provided` equal to
the empty string. -/
theorem claim8_witness :
    (greeter_lambda_handler (encodeEvent evAdaEmptyAge) "T").statusCode = 200
    ∧ dictGet (greeter_lambda_handler (encodeEvent evAdaEmptyAge) "T").body
        "age_provided" = some (PyVal.vstr "") := by
  have h := claim8_empty_age evAdaEmptyAge [("name", "Ada"), ("age", "")]
    "Ada" "T" rfl rfl (by decide) rfl
  exact ⟨h.1, h.2.1⟩
